import Mathlib

/-!
Verification of the sub-agent wrapper (`subagent_template.py`).

The program spawns a child CLI process, drains its stdout (optionally parsing a
newline-delimited JSON event stream), enforces a wall-clock timeout with
escalating process-group termination, and reconciles everything into one
outcome dictionary `{success, result, session_id, error, artifacts}`.

The embedding below models Python values that can appear in the pipeline as a
JSON-value type `JVal` (with Python truthiness), models each source function
over explicit inputs, and treats external effects (the `json.loads` parser,
process liveness, signal delivery) as scenario inputs describing what the
environment did.
-/

/-- A JSON value, as produced by `json.loads`.  Objects are association lists
in insertion order (Python dicts preserve insertion order; `json.loads` never
produces duplicate keys). -/
inductive JVal where
  | null : JVal
  | bool : Bool → JVal
  | num : Int → JVal
  | str : String → JVal
  | arr : List JVal → JVal
  | obj : List (String × JVal) → JVal

mutual
/-- Structural equality of JSON values (models Python `==`/`!=` on the
decoded values; for the scalar shapes the pipeline compares this agrees with
Python). -/
def JVal.beq : JVal → JVal → Bool
  | .null, .null => true
  | .bool a, .bool b => a == b
  | .num a, .num b => a == b
  | .str a, .str b => a == b
  | .arr xs, .arr ys => JVal.beqList xs ys
  | .obj fs, .obj gs => JVal.beqObj fs gs
  | _, _ => false
def JVal.beqList : List JVal → List JVal → Bool
  | [], [] => true
  | x :: xs, y :: ys => JVal.beq x y && JVal.beqList xs ys
  | _, _ => false
def JVal.beqObj : List (String × JVal) → List (String × JVal) → Bool
  | [], [] => true
  | (k, v) :: fs, (l, w) :: gs => k == l && JVal.beq v w && JVal.beqObj fs gs
  | _, _ => false
end

mutual
theorem JVal.beq_iff_eq : (a b : JVal) → (JVal.beq a b = true ↔ a = b)
  | .null, .null => by simp [JVal.beq]
  | .null, .bool _ => by simp [JVal.beq]
  | .null, .num _ => by simp [JVal.beq]
  | .null, .str _ => by simp [JVal.beq]
  | .null, .arr _ => by simp [JVal.beq]
  | .null, .obj _ => by simp [JVal.beq]
  | .bool _, .null => by simp [JVal.beq]
  | .bool _, .bool _ => by simp [JVal.beq]
  | .bool _, .num _ => by simp [JVal.beq]
  | .bool _, .str _ => by simp [JVal.beq]
  | .bool _, .arr _ => by simp [JVal.beq]
  | .bool _, .obj _ => by simp [JVal.beq]
  | .num _, .null => by simp [JVal.beq]
  | .num _, .bool _ => by simp [JVal.beq]
  | .num _, .num _ => by simp [JVal.beq]
  | .num _, .str _ => by simp [JVal.beq]
  | .num _, .arr _ => by simp [JVal.beq]
  | .num _, .obj _ => by simp [JVal.beq]
  | .str _, .null => by simp [JVal.beq]
  | .str _, .bool _ => by simp [JVal.beq]
  | .str _, .num _ => by simp [JVal.beq]
  | .str _, .str _ => by simp [JVal.beq]
  | .str _, .arr _ => by simp [JVal.beq]
  | .str _, .obj _ => by simp [JVal.beq]
  | .arr _, .null => by simp [JVal.beq]
  | .arr _, .bool _ => by simp [JVal.beq]
  | .arr _, .num _ => by simp [JVal.beq]
  | .arr _, .str _ => by simp [JVal.beq]
  | .arr xs, .arr ys => by
      have h := JVal.beqList_iff_eq xs ys
      simp [JVal.beq, h]
  | .arr _, .obj _ => by simp [JVal.beq]
  | .obj _, .null => by simp [JVal.beq]
  | .obj _, .bool _ => by simp [JVal.beq]
  | .obj _, .num _ => by simp [JVal.beq]
  | .obj _, .str _ => by simp [JVal.beq]
  | .obj _, .arr _ => by simp [JVal.beq]
  | .obj fs, .obj gs => by
      have h := JVal.beqObj_iff_eq fs gs
      simp [JVal.beq, h]
theorem JVal.beqList_iff_eq : (xs ys : List JVal) → (JVal.beqList xs ys = true ↔ xs = ys)
  | [], [] => by simp [JVal.beqList]
  | [], _ :: _ => by simp [JVal.beqList]
  | _ :: _, [] => by simp [JVal.beqList]
  | x :: xs, y :: ys => by
      have h1 := JVal.beq_iff_eq x y
      have h2 := JVal.beqList_iff_eq xs ys
      simp [JVal.beqList, h1, h2]
theorem JVal.beqObj_iff_eq :
    (fs gs : List (String × JVal)) → (JVal.beqObj fs gs = true ↔ fs = gs)
  | [], [] => by simp [JVal.beqObj]
  | [], _ :: _ => by simp [JVal.beqObj]
  | _ :: _, [] => by simp [JVal.beqObj]
  | (k, v) :: fs, (l, w) :: gs => by
      have h1 := JVal.beq_iff_eq v w
      have h2 := JVal.beqObj_iff_eq fs gs
      simp [JVal.beqObj, h1, h2, and_assoc]
end

instance : DecidableEq JVal := fun a b =>
  decidable_of_iff (JVal.beq a b = true) (JVal.beq_iff_eq a b)

/-- Python truthiness (`bool(x)`) for the values `JVal` models. -/
def JVal.truthy : JVal → Bool
  | .null => false
  | .bool b => b
  | .num n => n != 0
  | .str s => s != ""
  | .arr [] => false
  | .arr (_ :: _) => true
  | .obj [] => false
  | .obj (_ :: _) => true

/-- `d.get(k, default)` on a Python dict represented as an association list. -/
def jgetD (fs : List (String × JVal)) (k : String) (d : JVal) : JVal :=
  (fs.lookup k).getD d

example : jgetD [("type", .str "result")] "type" (.str "") = .str "result" := by decide
example : (JVal.str "").truthy = false := by decide
example : (JVal.obj [("a", .null)] : JVal) ≠ JVal.arr [] := by decide

/-- `x or default` on a decoded value (Python `or`): the left operand if it is
truthy, else the default. -/
def truthyOr (v : JVal) (d : JVal) : JVal :=
  if v.truthy then v else d

/-!
## Output drain pipeline (`read_stdout` in the source)

A `Line` is one line read from the child's stdout pipe.  `json.loads` is
external to the program, so each line carries its decode outcome: `raw s` is a
line whose stripped text is empty or fails to decode (both are logged and then
skipped by the source), `json s v` is a line whose stripped text decodes to
the JSON value `v`.
-/

inductive Line where
  | raw : String → Line
  | json : String → JVal → Line
deriving DecidableEq

/-- The raw text of a line, as appended verbatim to the log files. -/
def Line.rawText : Line → String
  | .raw s => s
  | .json s _ => s

/-- Python iteration (`for block in content`): lists yield their elements,
strings yield their characters, dicts yield their keys; other values raise
`TypeError`. -/
def pyIter : JVal → Option (List JVal)
  | .arr xs => some xs
  | .str s => some (s.toList.map fun c => .str (String.singleton c))
  | .obj fs => some (fs.map fun p => .str p.1)
  | _ => none

/-- Mutable state of the drain (`read_stdout`) path: the two verbatim logs,
the `last_tool_name_printed` dedup marker, the `final_result_event` slot, the
tool-name progress notifications printed so far, and the count of
`✅ complete` notifications printed. -/
structure DrainState where
  stdout_log : List Line
  stream_log : List Line
  last_tool_name_printed : Option JVal
  final_result_event : Option JVal
  tool_notifications : List JVal
  complete_notifications : Nat
deriving DecidableEq

def initDrainState : DrainState :=
  { stdout_log := [], stream_log := [], last_tool_name_printed := none,
    final_result_event := none, tool_notifications := [], complete_notifications := 0 }

/-- Is this content block a structured tool invocation?  Source:
`isinstance(block, dict) and block.get("type") == "tool_use"`. -/
def isToolUseBlock : JVal → Bool
  | .obj fs => jgetD fs "type" .null = .str "tool_use"
  | _ => false

/-- The name a tool invocation is displayed under.  Source:
`tool_name = block.get("name") or "tool"` (generic placeholder when the name
is absent or falsy). -/
def toolDisplayName : JVal → JVal
  | .obj fs => truthyOr (jgetD fs "name" .null) (.str "tool")
  | _ => .str "tool"

/-- Process one content block of an `assistant` event: if it is a tool
invocation whose display name differs from `last_tool_name_printed`, print one
progress notification and update the marker; otherwise do nothing. -/
def process_tool_block (st : Option JVal × List JVal) (block : JVal) :
    Option JVal × List JVal :=
  if isToolUseBlock block then
    let d := toolDisplayName block
    if st.1 = some d then st else (some d, st.2 ++ [d])
  else st

/-- Fold `process_tool_block` over the content blocks of one `assistant`
event, starting from the current dedup marker and notification list. -/
def process_content_blocks (last : Option JVal) (notifs : List JVal)
    (blocks : List JVal) : Option JVal × List JVal :=
  blocks.foldl process_tool_block (last, notifs)

/-- One iteration of the `for line in proc.stdout` loop of `read_stdout`.
Returns the updated state and `true` when the iteration raised an uncaught
exception (which kills the reader thread, aborting the drain).

Faithful to the source: the line is first appended to `stdout_log` (and, in
streaming mode, to `stream_log`), and only then interpreted.  A blank or
non-decoding line is skipped (`continue`).  For a decoded value `event`,
`event.get("type", "")` raises `AttributeError` when the value is not a dict;
for an `assistant` event, `event.get("message", {}).get("content", [])`
raises `AttributeError` when the `message` value is not a dict, and iterating
a non-iterable `content` value raises `TypeError`. -/
def read_stdout_line (stream_progress : Bool) (st : DrainState) (l : Line) :
    DrainState × Bool :=
  let st1 := { st with stdout_log := st.stdout_log ++ [l] }
  let st2 := if stream_progress then { st1 with stream_log := st1.stream_log ++ [l] }
             else st1
  if stream_progress then
    match l with
    | .raw _ => (st2, false)
    | .json _ v =>
      match v with
      | .obj fs =>
        let etype := jgetD fs "type" (.str "")
        if etype = .str "assistant" then
          match jgetD fs "message" (.obj []) with
          | .obj mfs =>
            match pyIter (jgetD mfs "content" (.arr [])) with
            | some blocks =>
              let r := process_content_blocks st2.last_tool_name_printed
                         st2.tool_notifications blocks
              ({ st2 with last_tool_name_printed := r.1, tool_notifications := r.2 },
               false)
            | none => (st2, true)
          | _ => (st2, true)
        else if etype = .str "result" then
          ({ st2 with final_result_event := some v,
                      complete_notifications := st2.complete_notifications + 1 },
           false)
        else (st2, false)
      | _ => (st2, true)
  else (st2, false)

/-- The whole `read_stdout` loop over the lines delivered by the pipe.  When
an iteration raises, the thread dies: the remaining lines are neither logged
nor interpreted, and the second component is `true`. -/
def read_stdout (stream_progress : Bool) (st : DrainState) :
    List Line → DrainState × Bool
  | [] => (st, false)
  | l :: ls =>
    let r := read_stdout_line stream_progress st l
    if r.2 then (r.1, true) else read_stdout stream_progress r.1 ls

/-!
## Result reconciliation and error texts
-/

/-- Drop trailing whitespace characters. -/
def rdropWS (l : List Char) : List Char :=
  (l.reverse.dropWhile Char.isWhitespace).reverse

/-- Character-level `str.strip()`: drop whitespace from both ends. -/
def stripChars (l : List Char) : List Char :=
  rdropWS (l.dropWhile Char.isWhitespace)

/-- Python `str.strip()` (whitespace on both ends). -/
def pyStrip (s : String) : String :=
  String.mk (stripChars s.data)

/-- Python `str(exc)` type names, used in the `AttributeError` message raised
by `value.get(...)` on a non-dict value. -/
def pyTypeName : JVal → String
  | .null => "NoneType"
  | .bool _ => "bool"
  | .num _ => "int"
  | .str _ => "str"
  | .arr _ => "list"
  | .obj _ => "dict"

def attributeErrorMsg (v : JVal) : String :=
  "\x27" ++ pyTypeName v ++ "\x27 object has no attribute \x27get\x27"

/-- `event.get("result", "") or ""`: the result text extracted from a
`result`-tagged event (only ever applied to decoded objects). -/
def resultPayload (ev : JVal) : JVal :=
  match ev with
  | .obj fs => truthyOr (jgetD fs "result" (.str "")) (.str "")
  | _ => .str ""

/-- `event.get("session_id")`. -/
def sessionPayload (ev : JVal) : JVal :=
  match ev with
  | .obj fs => jgetD fs "session_id" .null
  | _ => .null

/-- One iteration of the fallback rescan loop over the persisted stream log:
`ev = json.loads(ln.strip()); if ev.get("type") == "result": last_result = ev`
under a bare `except: continue`, so non-decoding lines and lines whose value
is not a dict are skipped. -/
def rescan_step (acc : Option JVal) (l : Line) : Option JVal :=
  match l with
  | .raw _ => acc
  | .json _ v =>
    match v with
    | .obj fs => if jgetD fs "type" .null = .str "result" then some v else acc
    | _ => acc

/-- Re-parse the persisted event-stream log looking for the last
`result`-tagged event. -/
def rescan_stream_log (lines : List Line) : Option JVal :=
  lines.foldl rescan_step none

/-- The `result`-tagged events among the decoded lines of a log, in order
(claim-side description used to state the last-one-wins property). -/
def result_events (lines : List Line) : List JVal :=
  lines.filterMap fun l =>
    match l with
    | .json _ (.obj fs) =>
        if jgetD fs "type" .null = .str "result" then some (.obj fs) else none
    | _ => none

/-- The reconciled return value of `run_subagent` (the `result` dict in the
source).  The constant `artifacts` record of log paths is omitted: no claim
refers to it. -/
structure RunOutcome where
  success : Bool
  result : JVal
  session_id : JVal
  error : Option String
deriving DecidableEq

/-- Streaming-mode reconciliation for a zero exit code (source lines 301-324):
its two inputs are the `final_result_event` slot as the supervisor thread
observes it after `reader.join(timeout=2)` (the join may time out, so the
slot can lag behind the persisted file) and the lines of the persisted
event-stream log, which is re-read from disk. -/
def reconcile_streaming (final_result_event : Option JVal) (logLines : List Line)
    (stream_log_path : String) : RunOutcome :=
  match final_result_event with
  | some ev =>
      { success := true, result := resultPayload ev,
        session_id := sessionPayload ev, error := none }
  | none =>
    match rescan_stream_log logLines with
    | some ev =>
        { success := true, result := resultPayload ev,
          session_id := sessionPayload ev, error := none }
    | none =>
        { success := true,
          result := .str ("(no result event; see " ++ stream_log_path ++ ")"),
          session_id := .null, error := none }

/-- Non-streaming reconciliation for a zero exit code (source lines 326-336).
`whole_decode` is the outcome of `json.loads` on the whole stdout log text;
`stdout_text` is that text.  When the decoded value is not a dict,
`output.get("result", "")` raises `AttributeError` after `success` was
already set to `True`; the outer `except Exception` then records the message
in `error`. -/
def reconcile_non_streaming (whole_decode : Option JVal) (stdout_text : String) :
    RunOutcome :=
  match whole_decode with
  | some (.obj fs) =>
      { success := true, result := truthyOr (jgetD fs "result" (.str "")) (.str ""),
        session_id := jgetD fs "session_id" .null, error := none }
  | some v =>
      { success := true, result := .str "", session_id := .null,
        error := some (attributeErrorMsg v) }
  | none =>
      { success := true, result := .str stdout_text, session_id := .null, error := none }

/-- Error text for a non-zero exit code (source line 342):
`(err_text.strip() or f"Exit code: {proc.returncode}").strip()` where
`err_text` is the contents of the stderr log. -/
def exit_error_text (stderr_text : String) (returncode : Int) : String :=
  pyStrip (if pyStrip stderr_text = "" then "Exit code: " ++ toString returncode
           else pyStrip stderr_text)

def timeout_error_text (timeout : Int) : String :=
  "Timeout after " ++ toString timeout ++ "s"

def claude_not_found_msg : String :=
  "Claude CLI not found. Install: npm install -g @anthropic-ai/claude-code"

/-!
## Credential/environment resolver (`_build_env`)
-/

/-- The ambient environment variables `_build_env` reads
(`None` = variable not set). -/
structure EnvMap where
  anthropic_auth_token : Option String
  zai_api_key : Option String
  anthropic_base_url : Option String
  zai_base_url : Option String
  api_timeout_ms : Option String
deriving DecidableEq

/-- `env.get(A) or env.get(B)`: the first operand unless it is falsy
(`None` or the empty string). -/
def pyOrEnv (a b : Option String) : Option String :=
  match a with
  | some s => if s = "" then b else some s
  | none => b

def DEFAULT_BASE_URL : String := "https://api.z.ai/api/anthropic"

def DEFAULT_API_TIMEOUT_MS : String := "300000"

def missing_token_msg : String :=
  "Missing API token!\nSet one of these environment variables:\n  export ZAI_API_KEY=\x27your-key-here\x27\n  export ANTHROPIC_AUTH_TOKEN=\x27your-key-here\x27\n\nGet your API key from: https://z.ai/subscribe"

/-- The child environment entries `_build_env` sets (the rest of the ambient
environment is copied through unchanged). -/
structure ChildEnv where
  anthropic_auth_token : String
  anthropic_base_url : String
  api_timeout_ms : String
deriving DecidableEq

/-- `_build_env`: raises `ValueError` (the `.error` arm) when neither
accepted token variable holds a truthy value. -/
def _build_env (e : EnvMap) : Except String ChildEnv :=
  match pyOrEnv e.anthropic_auth_token e.zai_api_key with
  | none => .error missing_token_msg
  | some t =>
    if t = "" then .error missing_token_msg
    else
      .ok { anthropic_auth_token := t,
            anthropic_base_url :=
              (pyOrEnv (pyOrEnv e.anthropic_base_url e.zai_base_url)
                (some DEFAULT_BASE_URL)).getD DEFAULT_BASE_URL,
            api_timeout_ms := e.api_timeout_ms.getD DEFAULT_API_TIMEOUT_MS }

/-!
## Timeout & termination supervisor (`_kill_process_group`)
-/

/-- Outcome of `proc.wait(timeout=grace_seconds)` after the graceful signal:
the child exited within the grace period, the wait raised
`subprocess.TimeoutExpired` (child still alive), or it raised some other
exception. -/
inductive GraceWait where
  | exited : GraceWait
  | expired : GraceWait
  | raised : GraceWait
deriving DecidableEq

/-- Signals `_kill_process_group` can issue: `os.killpg(..., SIGTERM)`,
`os.killpg(..., SIGKILL)`, and the fallback `proc.kill()` (SIGKILL to the
immediate child only). -/
inductive KillAction where
  | sigterm_group : KillAction
  | sigkill_group : KillAction
  | kill_child : KillAction
deriving DecidableEq

/-- Is this a forced-kill signal (SIGKILL, to the group or to the child)? -/
def KillAction.forced : KillAction → Bool
  | .sigterm_group => false
  | .sigkill_group => true
  | .kill_child => true

/-- The sequence of signals `_kill_process_group` issues, as a function of
whether `os.killpg(os.getpgid(proc.pid), SIGTERM)` itself raises and of the
grace-period wait outcome.  When the graceful signal raises, the
`except Exception` arm runs `proc.kill()` directly; when the wait raises
`TimeoutExpired`, the escalation sends SIGKILL to the group; when the wait
raises anything else, the `except Exception` arm again runs `proc.kill()`.
(Exceptions raised by the SIGKILL itself and by the follow-up 2-second wait
are swallowed and not modelled.) -/
def _kill_process_group (killpg_raises : Bool) (wait : GraceWait) : List KillAction :=
  if killpg_raises then [.kill_child]
  else
    match wait with
    | .exited => [.sigterm_group]
    | .expired => [.sigterm_group, .sigkill_group]
    | .raised => [.sigterm_group, .kill_child]

/-!
## One supervised run (`run_subagent`) and the CLI entry point (`main`)

A `RunScenario` packages what the environment did during one run: whether
`subprocess.Popen` raised `FileNotFoundError`, whether some other unexpected
exception was raised during spawn/drain, whether the poll loop found the
child still alive past the deadline, the exit code otherwise, the lines the
stdout pipe delivered, the outcome of `json.loads` on the whole captured
stdout text (non-streaming reconciliation), and the captured stderr text.
-/

structure RunScenario where
  task : String
  stream_progress : Bool
  timeout : Int
  launch_fails : Bool
  internal_exc : Option String
  timed_out : Bool
  returncode : Int
  stdout_lines : List Line
  whole_stdout_decode : Option JVal
  stderr_text : String
  stream_log_path : String
deriving DecidableEq

/-- The body of `run_subagent` from the `try:` onward, producing the `result`
dict it returns (source lines 207-347): launch failure and unexpected
spawn/drain exceptions are converted to error outcomes; a timeout returns
early with the timeout error and skips reconciliation; otherwise the exit
code selects streaming/non-streaming reconciliation or the stderr-based
failure text. -/
def run_subagent_body (sc : RunScenario) : RunOutcome :=
  if sc.launch_fails then
    { success := false, result := .str "", session_id := .null,
      error := some claude_not_found_msg }
  else
    match sc.internal_exc with
    | some m =>
        { success := false, result := .str "", session_id := .null, error := some m }
    | none =>
      let st := (read_stdout sc.stream_progress initDrainState sc.stdout_lines).1
      if sc.timed_out then
        { success := false, result := .str "", session_id := .null,
          error := some (timeout_error_text sc.timeout) }
      else if sc.returncode = 0 then
        if sc.stream_progress then
          reconcile_streaming st.final_result_event st.stream_log sc.stream_log_path
        else
          reconcile_non_streaming sc.whole_stdout_decode
            (String.join (st.stdout_log.map Line.rawText))
      else
        { success := false, result := .str "", session_id := .null,
          error := some (exit_error_text sc.stderr_text sc.returncode) }

/-- `_safe_truncate(s, n)`: returns `""` for a falsy argument; for a string it
slices and possibly appends an ellipsis; for any truthy non-string it raises
`TypeError` (`s[:n]` on an unsubscriptable value, or `list + str`). -/
def _safe_truncate (v : JVal) (n : Nat) : Except String String :=
  if v.truthy = false then .ok ""
  else
    match v with
    | .str s => .ok (s.take n ++ (if s.length > n then "..." else ""))
    | _ => .error ("TypeError: unsupported operand for _safe_truncate on " ++ pyTypeName v)

/-- The whole of `run_subagent`: `_build_env()` runs before the `try:` block,
so its `ValueError` propagates to the caller (the `.error` arm); after the
`try`/`finally`, the success-path summary line calls
`_safe_truncate(result.get("result", ""), 200)` outside any handler, so a
truthy non-string result value raises `TypeError` and the function never
returns. -/
def run_subagent (e : EnvMap) (sc : RunScenario) : Except String RunOutcome :=
  match _build_env e with
  | .error m => .error m
  | .ok _ =>
    let o := run_subagent_body sc
    if o.success then
      match _safe_truncate o.result 200 with
      | .error m => .error m
      | .ok _ => .ok o
    else .ok o

/-- The single JSON line `main` prints for the orchestrator:
`json.dumps({"success": ..., "result": ..., "error": ...})` — exactly these
three fields. -/
structure JsonResultLine where
  success : Bool
  result : JVal
  error : Option String
deriving DecidableEq

/-- The CLI entry point (`main` in the source; Lean reserves that name): calls `run_subagent` and, if it returns, prints the
JSON result line and exits with `0 if result["success"] else 1`.  An
exception escaping `run_subagent` propagates (the interpreter dies with a
traceback and no JSON line): the `.error` arm. -/
def main_entry (e : EnvMap) (sc : RunScenario) : Except String (JsonResultLine × Nat) :=
  match run_subagent e sc with
  | .error m => .error m
  | .ok o =>
      .ok ({ success := o.success, result := o.result, error := o.error },
           if o.success then 0 else 1)

/-- The timeout actually used by a direct call
`run_subagent(task, ..., timeout=?)`: the Python default parameter is 600. -/
def run_subagent_timeout (t : Option Int) : Int := t.getD 600

/-- The timeout value produced by the argument parser:
`--timeout` defaults to 120. -/
def cli_timeout_arg (flag : Option Int) : Int := flag.getD 120

/-- The timeout a CLI invocation ends up running with: `main` always passes
`args.timeout` explicitly to `run_subagent`. -/
def main_timeout (flag : Option Int) : Int :=
  run_subagent_timeout (some (cli_timeout_arg flag))

/-!
## Claim-side auxiliary definitions
-/

/-- Modelled from the spec wording of claim C5 — "result equal to that
object's `result` field (empty string when absent)" — for comparison with
what the source computes (`output.get("result", "") or ""`). -/
def spec_result_field (v : JVal) : JVal :=
  match v with
  | .obj fs => jgetD fs "result" (.str "")
  | _ => .str ""

/-- A decoded event value the streaming drain can interpret without raising:
any dict that is not `assistant`-tagged, or an `assistant`-tagged dict whose
`message` value is a dict (or absent) with an iterable `content` value (or
absent). -/
def benignEvent : JVal → Bool
  | .obj fs =>
    if jgetD fs "type" (.str "") = .str "assistant" then
      match jgetD fs "message" (.obj []) with
      | .obj mfs => (pyIter (jgetD mfs "content" (.arr []))).isSome
      | _ => false
    else true
  | _ => false

/-- A stdout line that can never abort the streaming drain: either it fails
to decode (skipped) or it decodes to a benign event value. -/
def benignLine : Line → Bool
  | .raw _ => true
  | .json _ v => benignEvent v

/-!
## Concrete instances used by witnesses and counterexamples
-/

def env_no_token : EnvMap :=
  { anthropic_auth_token := none, zai_api_key := none, anthropic_base_url := none,
    zai_base_url := none, api_timeout_ms := none }

def env_with_token : EnvMap :=
  { anthropic_auth_token := some "sk-test", zai_api_key := none,
    anthropic_base_url := none, zai_base_url := none, api_timeout_ms := none }

def scDefault : RunScenario :=
  { task := "list files", stream_progress := false, timeout := 600,
    launch_fails := false, internal_exc := none, timed_out := false,
    returncode := 0, stdout_lines := [], whole_stdout_decode := none,
    stderr_text := "",
    stream_log_path := "/tmp/glm-native-subagent/run_ab12cd34ef.stream.jsonl" }

def tool_use_read : JVal :=
  .obj [("type", .str "tool_use"), ("name", .str "Read")]

def assistant_read_line : Line :=
  .json "\x7b\"type\": \"assistant\", \"message\": \x7b\"content\": [\x7b\"type\": \"tool_use\", \"name\": \"Read\"\x7d]\x7d\x7d"
    (.obj [("type", .str "assistant"),
           ("message", .obj [("content", .arr [tool_use_read])])])

def result_ok_line : Line :=
  .json "\x7b\"type\": \"result\", \"result\": \"ok\", \"session_id\": \"abc\"\x7d"
    (.obj [("type", .str "result"), ("result", .str "ok"), ("session_id", .str "abc")])

def c2_scenario : RunScenario :=
  { scDefault with
    returncode := 2, stderr_text := "permission denied\n",
    stdout_lines := [Line.raw "partial useful output"] }

def c3_scenario : RunScenario :=
  { scDefault with
    stream_progress := true, timed_out := true, timeout := 1,
    stdout_lines := [assistant_read_line, result_ok_line] }

def c5_null_scenario : RunScenario :=
  { scDefault with
    stdout_lines := [Line.raw "\x7b\"result\": null\x7d"],
    whole_stdout_decode := some (.obj [("result", .null)]) }

def c5_done_scenario : RunScenario :=
  { scDefault with
    stdout_lines := [Line.raw "\x7b\"result\": \"done\", \"session_id\": \"abc\"\x7d"],
    whole_stdout_decode :=
      some (.obj [("result", .str "done"), ("session_id", .str "abc")]) }

def c6_abort_lines : List Line :=
  [Line.json "42" (.num 42), Line.raw "never reached"]

def c6_benign_lines : List Line :=
  [Line.raw "not json at all", assistant_read_line, result_ok_line]

def c7_result_first : JVal :=
  .obj [("type", .str "result"), ("result", .str "first"), ("session_id", .str "s1")]

def c7_result_second : JVal :=
  .obj [("type", .str "result"), ("result", .str "second"), ("session_id", .str "s2")]

def c7_log_lines : List Line :=
  [Line.json "\x7b\"type\": \"result\", \"result\": \"first\", \"session_id\": \"s1\"\x7d" c7_result_first,
   Line.raw "malformed tail",
   Line.json "\x7b\"type\": \"result\", \"result\": \"second\", \"session_id\": \"s2\"\x7d" c7_result_second]

/-- The summary print on the success path can only format falsy values and
strings without raising (`_safe_truncate` slices its argument). -/
def summary_printable : JVal → Bool
  | .str _ => true
  | v => !v.truthy

/-!
## Helper lemmas
-/

theorem dropWhile_dropWhile (p : Char → Bool) (l : List Char) :
    (l.dropWhile p).dropWhile p = l.dropWhile p := by
  induction l with
  | nil => rfl
  | cons a t ih =>
    rw [List.dropWhile_cons]
    split
    · exact ih
    · rw [List.dropWhile_cons]
      simp_all

theorem length_dropWhile_le (p : Char → Bool) (l : List Char) :
    (l.dropWhile p).length ≤ l.length := by
  induction l with
  | nil => simp
  | cons a t ih =>
    rw [List.dropWhile_cons]
    split
    · exact ih.trans (Nat.le_succ _)
    · simp

theorem dropWhile_fixed_head (p : Char → Bool) (a : Char) (t : List Char)
    (h : (a :: t).dropWhile p = a :: t) : p a = false := by
  rw [List.dropWhile_cons] at h
  by_cases hp : p a = true
  · rw [if_pos hp] at h
    have hlen := length_dropWhile_le p t
    rw [h] at hlen
    simp at hlen
  · simpa using hp

theorem rdropWS_rdropWS (l : List Char) : rdropWS (rdropWS l) = rdropWS l := by
  unfold rdropWS
  rw [List.reverse_reverse, dropWhile_dropWhile]

theorem dropWhile_rdropWS {l : List Char}
    (h : l.dropWhile Char.isWhitespace = l) :
    (rdropWS l).dropWhile Char.isWhitespace = rdropWS l := by
  cases l with
  | nil => rfl
  | cons a t =>
    have hpa : Char.isWhitespace a = false := dropWhile_fixed_head _ a t h
    unfold rdropWS
    rw [List.reverse_cons, List.dropWhile_append]
    split
    · rw [List.dropWhile_cons, List.dropWhile_nil, hpa]
      simp [hpa]
    · rw [List.reverse_append]
      simp [List.dropWhile_cons, hpa]

theorem stripChars_idem (l : List Char) : stripChars (stripChars l) = stripChars l := by
  unfold stripChars
  rw [dropWhile_rdropWS (dropWhile_dropWhile _ _), rdropWS_rdropWS]

theorem pyStrip_idem (s : String) : pyStrip (pyStrip s) = pyStrip s := by
  show String.mk (stripChars (String.mk (stripChars s.data)).data) = _
  rw [show (String.mk (stripChars s.data)).data = stripChars s.data from rfl,
      stripChars_idem]
  rfl

theorem read_stdout_line_nonstream (st : DrainState) (l : Line) :
    read_stdout_line false st l =
      ({ st with stdout_log := st.stdout_log ++ [l] }, false) := by
  simp [read_stdout_line]

theorem read_stdout_nonstream (ls : List Line) (st : DrainState) :
    read_stdout false st ls = ({ st with stdout_log := st.stdout_log ++ ls }, false) := by
  induction ls generalizing st with
  | nil => simp [read_stdout]
  | cons l ls ih =>
    rw [read_stdout, read_stdout_line_nonstream]
    simp only [if_neg Bool.false_ne_true, ih]
    simp

theorem read_stdout_line_benign (st : DrainState) (l : Line)
    (h : benignLine l = true) :
    (read_stdout_line true st l).2 = false ∧
    (read_stdout_line true st l).1.stdout_log = st.stdout_log ++ [l] ∧
    (read_stdout_line true st l).1.stream_log = st.stream_log ++ [l] := by
  cases l with
  | raw s => simp [read_stdout_line]
  | json s v =>
    cases v with
    | null => simp [benignLine, benignEvent] at h
    | bool b => simp [benignLine, benignEvent] at h
    | num n => simp [benignLine, benignEvent] at h
    | str t => simp [benignLine, benignEvent] at h
    | arr xs => simp [benignLine, benignEvent] at h
    | obj fs =>
      simp only [benignLine, benignEvent] at h
      by_cases ha : jgetD fs "type" (.str "") = .str "assistant"
      · rw [if_pos ha] at h
        cases hm : jgetD fs "message" (.obj []) with
        | obj mfs =>
          rw [hm] at h
          dsimp only at h
          cases hp : pyIter (jgetD mfs "content" (.arr [])) with
          | some blocks => simp [read_stdout_line, ha, hm, hp]
          | none => rw [hp] at h; simp at h
        | null => rw [hm] at h; simp at h
        | bool b => rw [hm] at h; simp at h
        | num n => rw [hm] at h; simp at h
        | str t => rw [hm] at h; simp at h
        | arr xs => rw [hm] at h; simp at h
      · by_cases hr : jgetD fs "type" (.str "") = .str "result"
        · simp [read_stdout_line, ha, hr]
        · simp [read_stdout_line, ha, hr]

theorem read_stdout_benign (ls : List Line) (st : DrainState)
    (h : ∀ l ∈ ls, benignLine l = true) :
    (read_stdout true st ls).2 = false ∧
    (read_stdout true st ls).1.stdout_log = st.stdout_log ++ ls ∧
    (read_stdout true st ls).1.stream_log = st.stream_log ++ ls := by
  induction ls generalizing st with
  | nil => simp [read_stdout]
  | cons l ls ih =>
    have hl := read_stdout_line_benign st l (h l (List.mem_cons_self l ls))
    have hrest := ih (read_stdout_line true st l).1
      (fun x hx => h x (List.mem_cons_of_mem l hx))
    rw [read_stdout]
    simp only [hl.1, if_neg Bool.false_ne_true]
    refine ⟨hrest.1, ?_, ?_⟩
    · rw [hrest.2.1, hl.2.1, List.append_assoc]
      simp
    · rw [hrest.2.2, hl.2.2, List.append_assoc]
      simp

theorem getLast?_cons_or {α : Type} (a : α) (l : List α) :
    (a :: l).getLast? = l.getLast?.or (some a) := by
  induction l with
  | nil => simp
  | cons b m ih =>
    rw [List.getLast?_cons_cons]
    exact (Option.or_of_isSome (by simp [List.getLast?_isSome])).symm

theorem result_events_cons (l : Line) (ls : List Line) :
    result_events (l :: ls) =
      (match l with
       | .json _ (.obj fs) =>
           if jgetD fs "type" .null = .str "result" then
             JVal.obj fs :: result_events ls
           else result_events ls
       | _ => result_events ls) := by
  cases l with
  | raw s => simp [result_events]
  | json s v =>
    cases v with
    | obj fs =>
      by_cases hres : jgetD fs "type" .null = .str "result"
      · simp [result_events, hres]
      · simp [result_events, hres]
    | null => simp [result_events]
    | bool b => simp [result_events]
    | num n => simp [result_events]
    | str t => simp [result_events]
    | arr xs => simp [result_events]

theorem rescan_foldl (ls : List Line) (acc : Option JVal) :
    ls.foldl rescan_step acc = ((result_events ls).getLast?).or acc := by
  induction ls generalizing acc with
  | nil => simp [result_events]
  | cons l ls ih =>
    rw [List.foldl_cons, ih, result_events_cons]
    cases l with
    | raw s => rfl
    | json s v =>
      cases v with
      | obj fs =>
        dsimp only
        by_cases hres : jgetD fs "type" .null = .str "result"
        · rw [if_pos hres, getLast?_cons_or, Option.or_assoc]
          have hstep : rescan_step acc (Line.json s (JVal.obj fs)) = some (JVal.obj fs) := by
            simp [rescan_step, hres]
          rw [hstep]
          rfl
        · rw [if_neg hres]
          have hstep : rescan_step acc (Line.json s (JVal.obj fs)) = acc := by
            simp [rescan_step, hres]
          rw [hstep]
      | null => rfl
      | bool b => rfl
      | num n => rfl
      | str t => rfl
      | arr xs => rfl

theorem rescan_eq_getLast (ls : List Line) :
    rescan_stream_log ls = (result_events ls).getLast? := by
  rw [rescan_stream_log, rescan_foldl, Option.or_none]

theorem runoutcome_xor_of_success {o : RunOutcome} (h : o.success = true) :
    Xor' (o.success = true) (o.success = false ∧ o.error ≠ none) :=
  Or.inl ⟨h, fun hb => by rw [h] at hb; exact absurd hb.1 (by decide)⟩

theorem runoutcome_xor_of_error {o : RunOutcome} (h : o.success = false)
    (he : o.error ≠ none) :
    Xor' (o.success = true) (o.success = false ∧ o.error ≠ none) :=
  Or.inr ⟨⟨h, he⟩, fun ht => by rw [h] at ht; exact absurd ht (by decide)⟩

theorem reconcile_streaming_success (fe : Option JVal) (ls : List Line) (p : String) :
    (reconcile_streaming fe ls p).success = true := by
  cases fe with
  | some ev => rfl
  | none =>
    cases h : rescan_stream_log ls with
    | some ev => simp [reconcile_streaming, h]
    | none => simp [reconcile_streaming, h]

theorem reconcile_non_streaming_success (d : Option JVal) (t : String) :
    (reconcile_non_streaming d t).success = true := by
  cases d with
  | none => rfl
  | some v => cases v <;> rfl

theorem safe_truncate_printable {v : JVal} (h : summary_printable v = true) :
    (_safe_truncate v 200).isOk = true := by
  cases v with
  | str s =>
    simp only [_safe_truncate]
    split
    · rfl
    · rfl
  | null => rfl
  | bool b =>
    have hb : b = false := by simpa [summary_printable, JVal.truthy] using h
    subst hb
    rfl
  | num n =>
    have hn : n = 0 := by simpa [summary_printable, JVal.truthy] using h
    subst hn
    rfl
  | arr xs =>
    have hx : xs = [] := by
      cases xs with
      | nil => rfl
      | cons a t => simp [summary_printable, JVal.truthy] at h
    subst hx
    rfl
  | obj fs =>
    have hx : fs = [] := by
      cases fs with
      | nil => rfl
      | cons a t => simp [summary_printable, JVal.truthy] at h
    subst hx
    rfl

theorem body_launch_fails {sc : RunScenario} (hl : sc.launch_fails = true) :
    run_subagent_body sc =
      { success := false, result := .str "", session_id := .null,
        error := some claude_not_found_msg } := by
  unfold run_subagent_body
  rw [hl]
  simp

theorem body_internal_exc {sc : RunScenario} {m : String}
    (hl : sc.launch_fails = false) (hie : sc.internal_exc = some m) :
    run_subagent_body sc =
      { success := false, result := .str "", session_id := .null, error := some m } := by
  unfold run_subagent_body
  rw [hl, hie]
  simp

theorem body_timeout {sc : RunScenario}
    (hl : sc.launch_fails = false) (hie : sc.internal_exc = none)
    (ht : sc.timed_out = true) :
    run_subagent_body sc =
      { success := false, result := .str "", session_id := .null,
        error := some (timeout_error_text sc.timeout) } := by
  unfold run_subagent_body
  rw [hl, hie, ht]
  simp

theorem body_nonzero_exit {sc : RunScenario}
    (hl : sc.launch_fails = false) (hie : sc.internal_exc = none)
    (ht : sc.timed_out = false) (hr : sc.returncode ≠ 0) :
    run_subagent_body sc =
      { success := false, result := .str "", session_id := .null,
        error := some (exit_error_text sc.stderr_text sc.returncode) } := by
  unfold run_subagent_body
  rw [hl, hie, ht]
  simp [hr]

theorem body_zero_streaming {sc : RunScenario}
    (hl : sc.launch_fails = false) (hie : sc.internal_exc = none)
    (ht : sc.timed_out = false) (hr : sc.returncode = 0)
    (hs : sc.stream_progress = true) :
    run_subagent_body sc =
      reconcile_streaming
        ((read_stdout true initDrainState sc.stdout_lines).1).final_result_event
        ((read_stdout true initDrainState sc.stdout_lines).1).stream_log
        sc.stream_log_path := by
  unfold run_subagent_body
  rw [hl, hie, ht, hr, hs]
  simp

theorem body_zero_nonstreaming {sc : RunScenario}
    (hl : sc.launch_fails = false) (hie : sc.internal_exc = none)
    (ht : sc.timed_out = false) (hr : sc.returncode = 0)
    (hs : sc.stream_progress = false) :
    run_subagent_body sc =
      reconcile_non_streaming sc.whole_stdout_decode
        (String.join (sc.stdout_lines.map Line.rawText)) := by
  unfold run_subagent_body
  rw [hl, hie, ht, hr, hs]
  rw [read_stdout_nonstream]
  simp [initDrainState]

/-!
## Claim theorems
-/

/-- C1: for every run, the final outcome satisfies exactly one of
`success = true` or `success = false` with a non-null error description;
the two cases are mutually exclusive and exhaustive over all configurations
(streaming or not, timeout or not, any exit code, launch failure, or internal
exception). -/
theorem claim_C1_final_outcome_dichotomy (sc : RunScenario) :
    Xor' ((run_subagent_body sc).success = true)
      ((run_subagent_body sc).success = false ∧ (run_subagent_body sc).error ≠ none) := by
  by_cases hl : sc.launch_fails = true
  · rw [body_launch_fails hl]
    exact runoutcome_xor_of_error rfl (by simp)
  · replace hl : sc.launch_fails = false := by simpa using hl
    cases hie : sc.internal_exc with
    | some m =>
      rw [body_internal_exc hl hie]
      exact runoutcome_xor_of_error rfl (by simp)
    | none =>
      by_cases ht : sc.timed_out = true
      · rw [body_timeout hl hie ht]
        exact runoutcome_xor_of_error rfl (by simp)
      · replace ht : sc.timed_out = false := by simpa using ht
        by_cases hr : sc.returncode = 0
        · by_cases hs : sc.stream_progress = true
          · rw [body_zero_streaming hl hie ht hr hs]
            exact runoutcome_xor_of_success (reconcile_streaming_success _ _ _)
          · replace hs : sc.stream_progress = false := by simpa using hs
            rw [body_zero_nonstreaming hl hie ht hr hs]
            exact runoutcome_xor_of_success (reconcile_non_streaming_success _ _)
        · rw [body_nonzero_exit hl hie ht hr]
          exact runoutcome_xor_of_error rfl (by simp)

/-- C2: a run whose child exits non-zero without a timeout fails, with the
stripped stderr log as the error when that is non-empty and a generic
exit-code message otherwise — regardless of anything on stdout (the scenario
quantifies over all `stdout_lines` and `whole_stdout_decode`). -/
theorem claim_C2_nonzero_exit (sc : RunScenario)
    (hl : sc.launch_fails = false) (hie : sc.internal_exc = none)
    (ht : sc.timed_out = false) (hr : sc.returncode ≠ 0) :
    (run_subagent_body sc).success = false ∧
    (pyStrip sc.stderr_text ≠ "" →
      (run_subagent_body sc).error = some (pyStrip sc.stderr_text)) ∧
    (pyStrip sc.stderr_text = "" →
      (run_subagent_body sc).error =
        some (pyStrip ("Exit code: " ++ toString sc.returncode))) := by
  rw [body_nonzero_exit hl hie ht hr]
  refine ⟨rfl, ?_, ?_⟩
  · intro hne
    show some (exit_error_text sc.stderr_text sc.returncode) = _
    unfold exit_error_text
    rw [if_neg hne, pyStrip_idem]
  · intro heq
    show some (exit_error_text sc.stderr_text sc.returncode) = _
    unfold exit_error_text
    rw [if_pos heq]

theorem claim_C2_nonzero_exit_witness :
    (run_subagent_body c2_scenario).success = false ∧
    (run_subagent_body c2_scenario).error = some "permission denied" := by
  have h := claim_C2_nonzero_exit c2_scenario rfl rfl rfl (by decide)
  refine ⟨h.1, ?_⟩
  have h2 := h.2.1 (by decide)
  rw [h2]
  decide

/-- C3: a run whose child is still alive past the deadline fails with the
timeout error text, even if the child had already produced valid output
(including a terminal result event): the outcome is independent of
`stdout_lines`, of the exit code, and of any captured event — reconciliation
is skipped on this path. -/
theorem claim_C3_timeout (sc : RunScenario)
    (hl : sc.launch_fails = false) (hie : sc.internal_exc = none)
    (ht : sc.timed_out = true) :
    run_subagent_body sc =
      { success := false, result := .str "", session_id := .null,
        error := some ("Timeout after " ++ toString sc.timeout ++ "s") } :=
  body_timeout hl hie ht

theorem claim_C3_timeout_witness :
    run_subagent_body c3_scenario =
      { success := false, result := .str "", session_id := .null,
        error := some "Timeout after 1s" } := by
  have h := claim_C3_timeout c3_scenario rfl rfl rfl
  rw [h]
  decide

/-- C10: a direct call to `run_subagent` without a timeout argument runs with
a 600-second timeout, while the command-line surface defaults to 120 seconds
(applied by the argument parser and passed explicitly); the two public entry
points apply different defaults. -/
theorem claim_C10_default_timeouts :
    run_subagent_timeout none = 600 ∧
    cli_timeout_arg none = 120 ∧
    main_timeout none = 120 ∧
    run_subagent_timeout none ≠ cli_timeout_arg none := by decide

/-- C5 counterexample: for a non-streaming zero-exit run whose whole stdout
parses to `{"result": null}`, the source (`output.get("result", "") or ""`)
returns the empty string, not the object's `result` field (`null`): the
outcome's result is not equal to the field the claim promises. -/
theorem claim_C5_counterexample :
    (run_subagent_body c5_null_scenario).success = true ∧
    spec_result_field (JVal.obj [("result", JVal.null)]) = JVal.null ∧
    (run_subagent_body c5_null_scenario).result ≠
      spec_result_field (JVal.obj [("result", JVal.null)]) := by decide

/-- C5 amended: for a non-streaming zero-exit run without timeout, a whole
stdout that parses as a JSON object yields `success = true` with result equal
to the object's `result` field when that is present with a truthy value and
the empty string when it is absent or falsy (`null`, `false`, `0`, `""`,
`[]`, `{}`), and session_id equal to its `session_id` field (null when
absent); a failed parse still yields `success = true` with the raw
stdout text as the result. -/
theorem claim_C5_amended_nonstreaming (sc : RunScenario)
    (hl : sc.launch_fails = false) (hie : sc.internal_exc = none)
    (ht : sc.timed_out = false) (hr : sc.returncode = 0)
    (hs : sc.stream_progress = false) :
    (∀ fs, sc.whole_stdout_decode = some (.obj fs) →
      run_subagent_body sc =
        { success := true,
          result := truthyOr (jgetD fs "result" (.str "")) (.str ""),
          session_id := jgetD fs "session_id" .null, error := none }) ∧
    (sc.whole_stdout_decode = none →
      run_subagent_body sc =
        { success := true,
          result := .str (String.join (sc.stdout_lines.map Line.rawText)),
          session_id := .null, error := none }) := by
  rw [body_zero_nonstreaming hl hie ht hr hs]
  constructor
  · intro fs hfs
    rw [hfs]
    rfl
  · intro hnone
    rw [hnone]
    rfl

theorem claim_C5_amended_nonstreaming_witness :
    run_subagent_body c5_done_scenario =
      { success := true, result := .str "done", session_id := .str "abc",
        error := none } := by
  have h := (claim_C5_amended_nonstreaming c5_done_scenario rfl rfl rfl rfl rfl).1
    [("result", .str "done"), ("session_id", .str "abc")] rfl
  rw [h]
  decide

/-- C7: for a streaming zero-exit run with no live-captured terminal event,
reconciliation re-scans the persisted stream log; the rescan returns exactly
the last `result`-tagged event of the log (last one wins), in which case the
outcome is `success = true` with that event's result payload and session id;
when the log holds no result event the outcome is still `success = true` with
a placeholder naming the stream log path. -/
theorem claim_C7_streaming_fallback (logLines : List Line) (path : String) :
    rescan_stream_log logLines = (result_events logLines).getLast? ∧
    (∀ ev, (result_events logLines).getLast? = some ev →
      reconcile_streaming none logLines path =
        { success := true, result := resultPayload ev,
          session_id := sessionPayload ev, error := none }) ∧
    (result_events logLines = [] →
      reconcile_streaming none logLines path =
        { success := true,
          result := .str ("(no result event; see " ++ path ++ ")"),
          session_id := .null, error := none }) := by
  refine ⟨rescan_eq_getLast logLines, ?_, ?_⟩
  · intro ev hev
    have hres : rescan_stream_log logLines = some ev :=
      (rescan_eq_getLast logLines).trans hev
    simp [reconcile_streaming, hres]
  · intro hnil
    have hres : rescan_stream_log logLines = none := by
      rw [rescan_eq_getLast, hnil]
      rfl
    simp [reconcile_streaming, hres]

theorem claim_C7_streaming_fallback_witness :
    reconcile_streaming none c7_log_lines "/tmp/stream.jsonl" =
      { success := true, result := .str "second", session_id := .str "s2",
        error := none } := by
  have h := (claim_C7_streaming_fallback c7_log_lines "/tmp/stream.jsonl").2.1
    c7_result_second (by decide)
  rw [h]
  decide

/-- C8: a tool-invocation block whose display name differs from the most
recently displayed one produces exactly one progress notification (and
updates the marker); one bearing the displayed name produces none; two
consecutive invocations with identical names produce exactly one notification
between them; a block with no `name` entry is displayed under the generic
placeholder name, subject to the same deduplication. -/
theorem claim_C8_tool_dedup (last : Option JVal) (ns : List JVal) (b c : JVal)
    (hb : isToolUseBlock b = true) (hc : isToolUseBlock c = true) :
    (last ≠ some (toolDisplayName b) →
      process_tool_block (last, ns) b =
        (some (toolDisplayName b), ns ++ [toolDisplayName b])) ∧
    (last = some (toolDisplayName b) →
      process_tool_block (last, ns) b = (last, ns)) ∧
    (toolDisplayName b = toolDisplayName c →
      (process_content_blocks last ns [b, c]).2.length =
        ns.length + (if last = some (toolDisplayName b) then 0 else 1)) ∧
    (∀ fs, b = JVal.obj fs → fs.lookup "name" = none →
      toolDisplayName b = .str "tool") := by
  refine ⟨?_, ?_, ?_, ?_⟩
  · intro hne
    simp [process_tool_block, hb, hne]
  · intro heq
    simp [process_tool_block, hb, heq]
  · intro hdc
    unfold process_content_blocks
    by_cases hl : last = some (toolDisplayName b)
    · have s1 : process_tool_block (last, ns) b = (last, ns) := by
        simp [process_tool_block, hb, hl]
      have s2 : process_tool_block (last, ns) c = (last, ns) := by
        simp [process_tool_block, hc, ← hdc, hl]
      rw [List.foldl_cons, s1, List.foldl_cons, s2, List.foldl_nil, if_pos hl]
      rfl
    · have s1 : process_tool_block (last, ns) b =
          (some (toolDisplayName b), ns ++ [toolDisplayName b]) := by
        simp [process_tool_block, hb, hl]
      have s2 : process_tool_block
          (some (toolDisplayName b), ns ++ [toolDisplayName b]) c =
          (some (toolDisplayName b), ns ++ [toolDisplayName b]) := by
        simp [process_tool_block, hc, ← hdc]
      rw [List.foldl_cons, s1, List.foldl_cons, s2, List.foldl_nil, if_neg hl]
      simp
  · intro fs hbfs hname
    subst hbfs
    simp [toolDisplayName, jgetD, hname, truthyOr, JVal.truthy]

theorem claim_C8_tool_dedup_witness :
    (process_content_blocks none [] [tool_use_read, tool_use_read]).2.length = 1 := by
  have h := (claim_C8_tool_dedup none [] tool_use_read tool_use_read
    (by decide) (by decide)).2.2.1 rfl
  rw [h]
  decide

/-- C6 counterexample: the line `42` decodes successfully as JSON, but
`event.get("type", "")` on the non-dict value raises `AttributeError`, which
kills the reader thread: the drain aborts (second component `true`) with only
the offending line logged — the following line is never read or logged,
refuting the claim that no decodable line ever aborts the drain. -/
theorem claim_C6_counterexample :
    (read_stdout true initDrainState c6_abort_lines).2 = true ∧
    (read_stdout true initDrainState c6_abort_lines).1.stdout_log =
      [Line.json "42" (JVal.num 42)] ∧
    (read_stdout true initDrainState c6_abort_lines).1.stream_log =
      [Line.json "42" (JVal.num 42)] := by decide

/-- C6 amended: every line is first appended verbatim to the stdout log and
the event-stream log and only then interpreted; a line that fails to decode
as JSON (or is blank) is silently skipped and never aborts the drain; and as
long as every decoded value is benign — a JSON object which, when
`assistant`-tagged, has a dict (or absent) `message` with an iterable (or
absent) `content` — the drain reads and logs every line to end-of-stream.
A line decoding to a non-object value (or an assistant event with a non-dict
message or non-iterable content) raises in the reader thread and aborts the
drain, as the counterexample shows. -/
theorem claim_C6_amended_drain (st : DrainState) :
    (∀ s, read_stdout_line true st (Line.raw s) =
      ({ st with stdout_log := st.stdout_log ++ [Line.raw s],
                 stream_log := st.stream_log ++ [Line.raw s] }, false)) ∧
    (∀ ls, (∀ l ∈ ls, benignLine l = true) →
      (read_stdout true st ls).2 = false ∧
      (read_stdout true st ls).1.stdout_log = st.stdout_log ++ ls ∧
      (read_stdout true st ls).1.stream_log = st.stream_log ++ ls) := by
  constructor
  · intro s
    simp [read_stdout_line]
  · intro ls h
    exact read_stdout_benign ls st h

theorem claim_C6_amended_drain_witness :
    (read_stdout true initDrainState c6_benign_lines).2 = false ∧
    (read_stdout true initDrainState c6_benign_lines).1.stdout_log = c6_benign_lines ∧
    (read_stdout true initDrainState c6_benign_lines).1.stream_log = c6_benign_lines := by
  have h := (claim_C6_amended_drain initDrainState).2 c6_benign_lines (by decide)
  exact ⟨h.1, by simpa [initDrainState] using h.2.1, by simpa [initDrainState] using h.2.2⟩

/-- C9 counterexample: when `os.killpg(..., SIGTERM)` itself raises (for
example the process group is already gone), the `except Exception` arm issues
`proc.kill()` — a forced kill — without any graceful signal having been sent
and without any grace-period wait, refuting the claim that a forced kill is
never issued without the graceful signal having been sent first. -/
theorem claim_C9_counterexample :
    _kill_process_group true GraceWait.expired = [KillAction.kill_child] ∧
    KillAction.forced KillAction.kill_child = true ∧
    KillAction.sigterm_group ∉ _kill_process_group true GraceWait.expired := by decide

/-- C9 amended: when sending the graceful group signal does not raise, the
supervisor always sends SIGTERM to the process group first, then waits up to
the grace period, and sends the forced group SIGKILL only when that wait
expires with the child still alive; but when the graceful signal (or the
grace wait) raises an exception, it falls back to a forced `proc.kill()` of
the immediate child — in the former case without the graceful signal having
been sent. -/
theorem claim_C9_amended_escalation (w : GraceWait) :
    ((_kill_process_group false w).head? = some KillAction.sigterm_group) ∧
    (w ≠ GraceWait.expired → KillAction.sigkill_group ∉ _kill_process_group false w) ∧
    (_kill_process_group false GraceWait.exited = [KillAction.sigterm_group]) ∧
    (_kill_process_group false GraceWait.expired =
      [KillAction.sigterm_group, KillAction.sigkill_group]) ∧
    (_kill_process_group true w = [KillAction.kill_child]) := by
  cases w <;> decide

theorem claim_C9_amended_escalation_witness :
    (_kill_process_group false GraceWait.exited).head? = some KillAction.sigterm_group ∧
    KillAction.sigkill_group ∉ _kill_process_group false GraceWait.exited := by
  have h := claim_C9_amended_escalation GraceWait.exited
  exact ⟨h.1, h.2.1 (by decide)⟩

/-- C4 counterexample: with neither accepted credential variable set,
`_build_env()` raises `ValueError` before the `try:` block of
`run_subagent`; the exception escapes `main`, so the process dies with a
traceback and never prints the single-line JSON result object. -/
theorem claim_C4_counterexample :
    main_entry env_no_token scDefault = .error missing_token_msg := rfl

/-- C4 amended: for every CLI invocation in which credential resolution
succeeds and the reconciled result value is a string or falsy (so the
success-path summary formatter cannot raise), the program prints the
single-line JSON object with exactly the fields success, result and error,
and exits with code 0 on success and 1 otherwise.  When credential resolution
fails the `ValueError` escapes uncaught before any JSON is printed (see the
counterexample); a truthy non-string result value likewise makes
`_safe_truncate` raise `TypeError` on the summary line before the JSON line
is reached. -/
theorem claim_C4_amended_exit_contract (e : EnvMap) (sc : RunScenario)
    (henv : (_build_env e).isOk = true)
    (hres : summary_printable (run_subagent_body sc).result = true) :
    main_entry e sc =
      .ok ({ success := (run_subagent_body sc).success,
             result := (run_subagent_body sc).result,
             error := (run_subagent_body sc).error },
           if (run_subagent_body sc).success then 0 else 1) := by
  unfold main_entry run_subagent
  cases hbe : _build_env e with
  | error m =>
    rw [hbe] at henv
    exact Bool.noConfusion henv
  | ok ce =>
    dsimp only
    by_cases hsucc : (run_subagent_body sc).success = true
    · have htr := safe_truncate_printable hres
      cases htt : _safe_truncate (run_subagent_body sc).result 200 with
      | error m =>
        rw [htt] at htr
        exact Bool.noConfusion htr
      | ok s => simp [hsucc, htt]
    · have hsucc2 : (run_subagent_body sc).success = false := by simpa using hsucc
      simp [hsucc2]

theorem claim_C4_amended_exit_contract_witness :
    main_entry env_with_token scDefault =
      .ok ({ success := true, result := .str "", error := none }, 0) := by
  have h := claim_C4_amended_exit_contract env_with_token scDefault rfl rfl
  rw [h]
  rfl
